import Mathlib

/-!
Shallow embedding of `src/ads.py` (ad-listing payment/approval service).

The program has two control flows sharing one document store:
* `check_ads_periodically` — an unbounded loop; each iteration queries all
  listings with `isApproved == False` and, per listing, applies a 24h
  throttle, creates a Stripe payment link, mails it to the listing's admin,
  and writes `last_email_sent = now` back to the store.
* `stripe_webhook` — verifies a Stripe signature, parses the event, and for
  `checkout.session.completed` events sets `isApproved = True` and
  `status = "active"` on every listing whose `adUnitId` equals the event
  metadata's `ad_id` (defaulting to the literal string `"Unknown"`).

External collaborators (Stripe link creation, SMTP delivery, Firestore
update success) are modelled as an explicit environment of oracles.
Python exception behaviour is modelled faithfully:
`create_payment_link` catches every exception and returns `None`
(here: `Option String`); `send_payment_link_to_admin` catches every
exception and returns nothing, so its caller cannot observe delivery
failure; the Firestore `update` call in the loop body is NOT wrapped in
any `try`, so a raising update propagates and aborts the loop
(here: `Except.error`).

Wall-clock time is modelled at minute granularity: a Python `datetime`
becomes a wall-clock reading plus an optional UTC-offset (`none` = naive);
`timedelta(days=1)` becomes 1440 minutes.
-/

namespace Ads

/-- Model of a Python `datetime`: a wall-clock reading (in minutes) and an
optional timezone given as an offset from UTC in minutes (`none` = naive). -/
structure PyDateTime where
  wall : Int
  tz : Option Int
deriving DecidableEq

/-- Model of `ts.replace(tzinfo=timezone.utc)` (src/ads.py line 172): the
wall-clock reading is kept and the timezone is overwritten with UTC. -/
def replaceTzUtc (ts : PyDateTime) : PyDateTime :=
  { ts with tz := some 0 }

/-- The absolute instant a datetime denotes: wall-clock minus UTC offset
(a naive value is read at face value). -/
def instantOf (ts : PyDateTime) : Int :=
  ts.wall - ts.tz.getD 0

/-- Model of Python subtraction of two timezone-aware datetimes: the
difference of the absolute instants they denote. -/
def awareSub (a b : PyDateTime) : Int :=
  instantOf a - instantOf b

/-- `timedelta(days=1)` in minutes. -/
def oneDayMinutes : Int := 1440

/-- The throttle test of src/ads.py lines 171-175: if `last_email_sent` is
present, overwrite its timezone with UTC and compare `now - last < 1 day`. -/
def throttled (now : PyDateTime) : Option PyDateTime → Bool
  | some ts => decide (awareSub now (replaceTzUtc ts) < oneDayMinutes)
  | none => false

/-- A document of the `customads` collection, with the fields the program
reads or writes. Fields read via `.get(..., None)` are `Option`s. -/
structure AdListing where
  docId : String
  title : Option String
  ad_admin : Option String
  adUnitId : Option String
  isApproved : Bool
  status : String
  last_email_sent : Option PyDateTime
deriving DecidableEq

/-- Python truthiness test `not x` for an optional string: `None` and the
empty string are falsy (src/ads.py line 167). -/
def falsyOptStr : Option String → Bool
  | none => true
  | some s => decide (s = "")

/-- `ad_data.get('title', 'Unknown')` (src/ads.py line 162). -/
def adTitleOf (ad : AdListing) : String := ad.title.getD "Unknown"

/-- Trace of external calls made while processing one listing. -/
inductive CallEvent where
  | createLinkCall (adTitle adId : String)
  | notifyCall (email link adTitle : String) (delivered : Bool)
  | updateCall (docId : String)
deriving DecidableEq

/-- Oracles for the external collaborators: `create_payment_link` returns a
session URL or `none` (it catches every Stripe exception, lines 149-151);
`smtp_delivers` says whether the SMTP send inside
`send_payment_link_to_admin` succeeds — the helper catches the exception
either way (lines 116-123), so its caller never sees the outcome;
`firestore_update_ok` says whether the store update for a document id
returns normally or raises. -/
structure Env where
  create_payment_link : String → String → Option String
  smtp_delivers : String → Bool
  firestore_update_ok : String → Bool

/-- The body of the `for doc in query` loop of `check_ads_periodically`
(src/ads.py lines 160-185) for one listing: skip on missing `adUnitId` or
`ad_admin`; skip when throttled; otherwise create a payment link (`none` =
caught failure → skip); on success, send the mail (delivery failure is
swallowed) and then update `last_email_sent = now` — this update is not
guarded, so a raising update is `Except.error`. -/
def process_ad (env : Env) (now : PyDateTime) (ad : AdListing) :
    Except String (AdListing × List CallEvent) :=
  if falsyOptStr ad.adUnitId || falsyOptStr ad.ad_admin then
    Except.ok (ad, [])
  else if throttled now ad.last_email_sent then
    Except.ok (ad, [])
  else
    match env.create_payment_link (adTitleOf ad) (ad.adUnitId.getD "") with
    | some link =>
        if env.firestore_update_ok ad.docId then
          Except.ok ({ ad with last_email_sent := some now },
            [CallEvent.createLinkCall (adTitleOf ad) (ad.adUnitId.getD ""),
             CallEvent.notifyCall (ad.ad_admin.getD "") link (adTitleOf ad)
               (env.smtp_delivers (ad.ad_admin.getD "")),
             CallEvent.updateCall ad.docId])
        else
          Except.error ad.docId
    | none =>
        Except.ok (ad, [CallEvent.createLinkCall (adTitleOf ad) (ad.adUnitId.getD "")])

/-- The `for` loop over the query results: process listings in order,
threading an uncaught exception (which aborts the whole loop). Returns the
listings' post-states and the concatenated call trace. -/
def run_ads (env : Env) (now : PyDateTime) :
    List AdListing → Except String (List AdListing × List CallEvent)
  | [] => Except.ok ([], [])
  | ad :: rest =>
    match process_ad env now ad with
    | Except.error e => Except.error e
    | Except.ok (ad2, tr) =>
      match run_ads env now rest with
      | Except.error e => Except.error e
      | Except.ok (rest2, tr2) => Except.ok (ad2 :: rest2, tr ++ tr2)

/-- One reconciliation pass (one iteration of `check_ads_periodically`,
src/ads.py lines 155-185): query `isApproved == False` and run the loop
body on each result. -/
def check_ads_pass (env : Env) (now : PyDateTime) (store : List AdListing) :
    Except String (List AdListing × List CallEvent) :=
  run_ads env now (store.filter (fun a => a.isApproved == false))

/-- Number of link-creation calls in a trace. -/
def countCreate : List CallEvent → Nat
  | [] => 0
  | CallEvent.createLinkCall _ _ :: r => countCreate r + 1
  | _ :: r => countCreate r

/-- Number of notification-dispatch calls in a trace. -/
def countNotify : List CallEvent → Nat
  | [] => 0
  | CallEvent.notifyCall _ _ _ _ :: r => countNotify r + 1
  | _ :: r => countNotify r

/-- Number of store-update calls in a trace. -/
def countUpdate : List CallEvent → Nat
  | [] => 0
  | CallEvent.updateCall _ :: r => countUpdate r + 1
  | _ :: r => countUpdate r

/-- Outcome of `stripe.Webhook.construct_event` (src/ads.py lines 195-205):
`ValueError` for a malformed payload, signature-verification error
otherwise. -/
inductive WebhookError where
  | invalidPayload
  | invalidSignature
deriving DecidableEq

/-- A verified, parsed Stripe event: its `type` string and
`session['metadata'].get('ad_id', ...)` as an optional string. -/
structure StripeEvent where
  type : String
  metadata_ad_id : Option String
deriving DecidableEq

/-- An HTTP response: status code and the `success` flag of the JSON body. -/
structure HttpResponse where
  statusCode : Nat
  success : Bool
deriving DecidableEq

/-- The update loop of the webhook (src/ads.py lines 211-219): every
listing whose `adUnitId` equals the given ad id gets `isApproved = True`
and `status = "active"`; all other listings are untouched. -/
def approveMatching (ad_id : String) (store : List AdListing) : List AdListing :=
  store.map (fun d =>
    if d.adUnitId = some ad_id then
      { d with isApproved := true, status := "active" }
    else d)

/-- The `/webhook` handler (src/ads.py lines 189-222). `constructed` is the
outcome of signature verification and parsing; on error the handler
returns 400 `{success: false}` without touching the store; on a
`checkout.session.completed` event it extracts
`metadata.get('ad_id', 'Unknown')`, approves every matching listing and
returns 200 `{success: true}`; any other event type returns 200
`{success: true}` with no store change. -/
def stripe_webhook (constructed : Except WebhookError StripeEvent)
    (store : List AdListing) : List AdListing × HttpResponse :=
  match constructed with
  | Except.error _ => (store, ⟨400, false⟩)
  | Except.ok ev =>
    if ev.type = "checkout.session.completed" then
      (approveMatching (ev.metadata_ad_id.getD "Unknown") store, ⟨200, true⟩)
    else
      (store, ⟨200, true⟩)

/-! Concrete inputs used by witnesses and counterexamples. -/

/-- Concrete environment: link creation succeeds, SMTP delivery fails,
store updates succeed. -/
def envC3 : Env :=
  ⟨fun _ _ => some "https://pay.example/c3", fun _ => false, fun _ => true⟩

/-- Concrete unapproved listing with all fields present and no
`last_email_sent`. -/
def adC3 : AdListing :=
  ⟨"d3", some "SummerSale", some "admin@x.com", some "ad1", false, "pending", none⟩

/-- Concrete pass time for the C3 scenario. -/
def nowC3 : PyDateTime := ⟨1000, some 0⟩

/-- Concrete environment for the C4 witness. -/
def envC4 : Env :=
  ⟨fun _ _ => some "https://pay.example/c4", fun _ => true, fun _ => true⟩

/-- Concrete unapproved listing notified 100 minutes before `nowC4`. -/
def adC4 : AdListing :=
  ⟨"d4", some "Ad4", some "a4@x.com", some "u4", false, "pending", some ⟨100, none⟩⟩

/-- Concrete pass time for the C4 witness. -/
def nowC4 : PyDateTime := ⟨200, some 0⟩

/-- Concrete environment whose link creation would succeed for any listing. -/
def envC5 : Env :=
  ⟨fun _ _ => some "https://pay.example/c5x", fun _ => true, fun _ => true⟩

/-- Concrete unapproved listing with no `last_email_sent` but a missing
`ad_admin` field. -/
def adC5 : AdListing :=
  ⟨"d5", none, none, some "ad9", false, "pending", none⟩

/-- Concrete pass time for the C5 counterexample. -/
def nowC5 : PyDateTime := ⟨0, some 0⟩

/-- Concrete environment for the C5 witness (everything succeeds). -/
def envC5w : Env :=
  ⟨fun _ _ => some "https://pay.example/c5", fun _ => true, fun _ => true⟩

/-- Concrete fully-populated unapproved listing, never notified. -/
def adC5w : AdListing :=
  ⟨"d5w", some "T5", some "w@x.com", some "ad5", false, "pending", none⟩

/-- Concrete pass time for the C5 witness. -/
def nowC5w : PyDateTime := ⟨700, some 0⟩

/-- Concrete completion event carrying ad id `u1`. -/
def evC1 : StripeEvent := ⟨"checkout.session.completed", some "u1"⟩

/-- Concrete store with one listing matching `u1` and one not matching. -/
def storeC1 : List AdListing :=
  [⟨"dM", some "M", some "m@x.com", some "u1", false, "pending", none⟩,
   ⟨"dN", some "N", some "n@x.com", some "u9", false, "pending", none⟩]

/-- Concrete completion event carrying ad id `u6`. -/
def evC6 : StripeEvent := ⟨"checkout.session.completed", some "u6"⟩

/-- Concrete store where the only `u6` listing is already approved and
active. -/
def storeC6 : List AdListing :=
  [⟨"d6", some "T6", some "c@x.com", some "u6", true, "active", none⟩,
   ⟨"d7", some "T7", some "dd@x.com", some "u7", false, "pending", none⟩]

/-- Concrete store satisfying the approval/status invariant. -/
def storeC7 : List AdListing :=
  [⟨"d7s", some "S", some "s@x.com", some "u7w", true, "active", none⟩]

/-- Concrete listing with missing correlation fields (skipped by the
reconciler). -/
def adC7 : AdListing := ⟨"d7w", some "T", none, none, false, "pending", none⟩

/-- Concrete environment for the C7 witness. -/
def envC7 : Env := ⟨fun _ _ => none, fun _ => true, fun _ => true⟩

/-- Concrete pass time for the C7 witness. -/
def nowC7 : PyDateTime := ⟨0, some 0⟩

/-- Concrete listing whose store update raises. -/
def adC8a : AdListing :=
  ⟨"dA", some "A", some "a@x.com", some "u1c8", false, "pending", none⟩

/-- Concrete listing after `adC8a` in the query order. -/
def adC8b : AdListing :=
  ⟨"dB", some "B", some "b@x.com", some "u2c8", false, "pending", none⟩

/-- Concrete environment where only the store update for document `dA`
raises. -/
def envC8 : Env :=
  ⟨fun _ _ => some "https://pay.example/c8", fun _ => true, fun d => !(d == "dA")⟩

/-- Concrete pass time for the C8 counterexample. -/
def nowC8 : PyDateTime := ⟨500, some 0⟩

/-- Concrete completion event with no `ad_id` in its metadata. -/
def evC9 : StripeEvent := ⟨"checkout.session.completed", none⟩

/-- Concrete store with one listing whose `adUnitId` is the literal string
`Unknown` and one other listing. -/
def storeC9 : List AdListing :=
  [⟨"dU", some "TU", some "u@x.com", some "Unknown", false, "pending", none⟩,
   ⟨"dV", some "TV", some "v@x.com", some "other", false, "pending", none⟩]

/-! Helper lemmas shared by the claim theorems. -/

/-- Mapping a function over a list is pointwise related to the list. -/
theorem forall2_map_self {α : Type} (R : α → α → Prop) (f : α → α) (l : List α)
    (h : ∀ d, R d (f d)) : List.Forall₂ R l (l.map f) := by
  induction l with
  | nil => exact List.Forall₂.nil
  | cons a t ih => exact List.Forall₂.cons (h a) ih

/-- Setting `isApproved := true, status := "active"` on a listing that is
already approved and active changes nothing. -/
theorem set_approved_noop (d : AdListing) (h1 : d.isApproved = true)
    (h2 : d.status = "active") :
    ({ d with isApproved := true, status := "active" } : AdListing) = d := by
  cases d
  simp_all

/-- If every listing matching `X` is already approved and active, the
webhook's update loop is the identity on the store. -/
theorem approveMatching_noop (X : String) (store : List AdListing)
    (hall : ∀ d ∈ store, d.adUnitId = some X →
      d.isApproved = true ∧ d.status = "active") :
    approveMatching X store = store := by
  unfold approveMatching
  induction store with
  | nil => rfl
  | cons a t ih =>
    simp only [List.map_cons]
    congr 1
    · by_cases hc : a.adUnitId = some X
      · rw [if_pos hc]
        obtain ⟨h1, h2⟩ := hall a (by simp) hc
        exact set_approved_noop a h1 h2
      · exact if_neg hc
    · exact ih (fun d hd hX => hall d (by simp [hd]) hX)

/-- Processing one listing never changes its approval flag or status: the
loop body only ever writes `last_email_sent`. -/
theorem process_ad_ok_approval_status (env : Env) (now : PyDateTime)
    (ad ad2 : AdListing) (tr : List CallEvent)
    (h : process_ad env now ad = Except.ok (ad2, tr)) :
    ad2.isApproved = ad.isApproved ∧ ad2.status = ad.status := by
  unfold process_ad at h
  split at h
  · simp only [Except.ok.injEq, Prod.mk.injEq] at h
    obtain ⟨h1, -⟩ := h
    subst h1
    exact ⟨rfl, rfl⟩
  · split at h
    · simp only [Except.ok.injEq, Prod.mk.injEq] at h
      obtain ⟨h1, -⟩ := h
      subst h1
      exact ⟨rfl, rfl⟩
    · split at h
      · split at h
        · simp only [Except.ok.injEq, Prod.mk.injEq] at h
          obtain ⟨h1, -⟩ := h
          subst h1
          exact ⟨rfl, rfl⟩
        · exact Except.noConfusion h
      · simp only [Except.ok.injEq, Prod.mk.injEq] at h
        obtain ⟨h1, -⟩ := h
        subst h1
        exact ⟨rfl, rfl⟩

/-! Claim theorems. -/

/-- Claim C2: an inbound event whose signature verification fails or whose
payload cannot be parsed gets a 400 response with `success = false`, and
the store is left unmodified. -/
theorem C2_invalid_event_rejected_unmodified (e : WebhookError)
    (store : List AdListing) :
    stripe_webhook (Except.error e) store = (store, ⟨400, false⟩) := rfl

/-- Claim C4: an unapproved listing whose `last_email_sent` exists and is
less than 24h old (under the code's comparison) causes no link creation,
no notification and no store write; the pass leaves it unchanged. -/
theorem C4_throttled_listing_no_side_effects (env : Env) (now : PyDateTime)
    (ad : AdListing) (ts : PyDateTime)
    (happ : ad.isApproved = false)
    (hlast : ad.last_email_sent = some ts)
    (hlt : awareSub now (replaceTzUtc ts) < oneDayMinutes) :
    process_ad env now ad = Except.ok (ad, [])
    ∧ check_ads_pass env now [ad] = Except.ok ([ad], []) := by
  have hp : process_ad env now ad = Except.ok (ad, []) := by
    unfold process_ad
    split
    · rfl
    · rw [hlast]
      simp [throttled, hlt]
  exact ⟨hp, by simp [check_ads_pass, run_ads, happ, hp]⟩

/-- Witness for C4 at a concrete listing notified 100 minutes ago. -/
theorem C4_witness :
    process_ad envC4 nowC4 adC4 = Except.ok (adC4, [])
    ∧ check_ads_pass envC4 nowC4 [adC4] = Except.ok ([adC4], []) :=
  C4_throttled_listing_no_side_effects envC4 nowC4 adC4 ⟨100, none⟩ rfl rfl
    (by decide)

/-- Claim C9: a verified completion event with no `ad_id` in its metadata
is not rejected: the handler behaves exactly as if the ad id were the
literal string `Unknown`, approves every listing whose `adUnitId` is
`Unknown`, and answers 200 `{success: true}`. -/
theorem C9_missing_ad_id_unknown (ev : StripeEvent) (store : List AdListing)
    (hty : ev.type = "checkout.session.completed")
    (hmd : ev.metadata_ad_id = none) :
    stripe_webhook (Except.ok ev) store
      = stripe_webhook (Except.ok ⟨"checkout.session.completed", some "Unknown"⟩) store
    ∧ (stripe_webhook (Except.ok ev) store).2 = ⟨200, true⟩
    ∧ ∀ d ∈ (stripe_webhook (Except.ok ev) store).1,
        d.adUnitId = some "Unknown" → d.isApproved = true ∧ d.status = "active" := by
  have hw : stripe_webhook (Except.ok ev) store
      = (approveMatching "Unknown" store, ⟨200, true⟩) := by
    simp [stripe_webhook, hty, hmd]
  refine ⟨?_, ?_, ?_⟩
  · rw [hw]; rfl
  · rw [hw]
  · rw [hw]
    intro d hd hu
    simp only [approveMatching, List.mem_map] at hd
    obtain ⟨d0, hd0, rfl⟩ := hd
    by_cases hc : d0.adUnitId = some "Unknown"
    · rw [if_pos hc]
      exact ⟨rfl, rfl⟩
    · rw [if_neg hc] at hu ⊢
      exact absurd hu hc

/-- Witness for C9 at a concrete store holding a listing whose `adUnitId`
is the literal string `Unknown`. -/
theorem C9_witness :
    stripe_webhook (Except.ok evC9) storeC9
      = stripe_webhook (Except.ok ⟨"checkout.session.completed", some "Unknown"⟩) storeC9
    ∧ (stripe_webhook (Except.ok evC9) storeC9).2 = ⟨200, true⟩
    ∧ ∀ d ∈ (stripe_webhook (Except.ok evC9) storeC9).1,
        d.adUnitId = some "Unknown" → d.isApproved = true ∧ d.status = "active" :=
  C9_missing_ad_id_unknown evC9 storeC9 rfl rfl

/-- Claim C10: the throttle check overwrites (does not convert) the stored
timestamp's timezone: the replaced value keeps the wall-clock reading and
gets offset 0, the throttle compares `now` against that wall-clock reading
taken as UTC, and for any non-UTC stored offset this differs from the
instant the timestamp actually denotes. -/
theorem C10_replace_not_convert (now ts : PyDateTime) (o : Int)
    (h : ts.tz = some o) :
    (replaceTzUtc ts).wall = ts.wall
    ∧ (replaceTzUtc ts).tz = some 0
    ∧ (throttled now (some ts) = true ↔ instantOf now - ts.wall < oneDayMinutes)
    ∧ (o ≠ 0 → instantOf ts ≠ ts.wall) := by
  refine ⟨rfl, rfl, ?_, ?_⟩
  · simp [throttled, awareSub, replaceTzUtc, instantOf]
  · intro ho
    simp only [instantOf, h, Option.getD_some]
    omega

/-- Witness for C10 at a timestamp stored with a +05:30 offset. -/
theorem C10_witness :
    (replaceTzUtc ⟨600, some 330⟩).wall = (⟨600, some 330⟩ : PyDateTime).wall
    ∧ (replaceTzUtc ⟨600, some 330⟩).tz = some 0
    ∧ (throttled ⟨0, some 0⟩ (some ⟨600, some 330⟩) = true ↔
        instantOf ⟨0, some 0⟩ - (⟨600, some 330⟩ : PyDateTime).wall < oneDayMinutes)
    ∧ ((330 : Int) ≠ 0 → instantOf ⟨600, some 330⟩ ≠ (⟨600, some 330⟩ : PyDateTime).wall) :=
  C10_replace_not_convert ⟨0, some 0⟩ ⟨600, some 330⟩ 330 rfl

/-- Claim C1: a verified, parsed completion event carrying ad id `X`
answers 200 `{success: true}` and pointwise transforms the store: every
listing whose `adUnitId` equals `X` gets `isApproved = true` and
`status = "active"` with all other fields unchanged, and every other
listing is untouched (zero, one, or many matches). -/
theorem C1_completion_approves_all_matches (ev : StripeEvent)
    (store : List AdListing) (X : String)
    (hty : ev.type = "checkout.session.completed")
    (hmd : ev.metadata_ad_id = some X) :
    (stripe_webhook (Except.ok ev) store).2 = ⟨200, true⟩
    ∧ List.Forall₂ (fun d d2 =>
        (d.adUnitId = some X →
          d2.isApproved = true ∧ d2.status = "active" ∧ d2.docId = d.docId
          ∧ d2.title = d.title ∧ d2.ad_admin = d.ad_admin
          ∧ d2.adUnitId = d.adUnitId ∧ d2.last_email_sent = d.last_email_sent)
        ∧ (d.adUnitId ≠ some X → d2 = d))
        store (stripe_webhook (Except.ok ev) store).1 := by
  have hw : stripe_webhook (Except.ok ev) store
      = (approveMatching X store, ⟨200, true⟩) := by
    simp [stripe_webhook, hty, hmd]
  refine ⟨by rw [hw], ?_⟩
  rw [hw]
  unfold approveMatching
  apply forall2_map_self
  intro d
  by_cases hc : d.adUnitId = some X
  · refine ⟨fun _ => ?_, fun hne => absurd hc hne⟩
    rw [if_pos hc]
    exact ⟨rfl, rfl, rfl, rfl, rfl, rfl, rfl⟩
  · exact ⟨fun heq => absurd heq hc, fun _ => if_neg hc⟩

/-- Witness for C1 at a concrete store with one matching and one
non-matching listing. -/
theorem C1_witness :
    (stripe_webhook (Except.ok evC1) storeC1).2 = ⟨200, true⟩
    ∧ List.Forall₂ (fun d d2 =>
        (d.adUnitId = some "u1" →
          d2.isApproved = true ∧ d2.status = "active" ∧ d2.docId = d.docId
          ∧ d2.title = d.title ∧ d2.ad_admin = d.ad_admin
          ∧ d2.adUnitId = d.adUnitId ∧ d2.last_email_sent = d.last_email_sent)
        ∧ (d.adUnitId ≠ some "u1" → d2 = d))
        storeC1 (stripe_webhook (Except.ok evC1) storeC1).1 :=
  C1_completion_approves_all_matches evC1 storeC1 "u1" rfl rfl

/-- Claim C3 counterexample: for a concrete listing whose payment link is
obtained but whose notification dispatch fails (the trace records an
undelivered notify call), the store update is NOT skipped: the pass writes
`last_email_sent = now` anyway, so the listing is not retried next cycle. -/
theorem C3_counterexample :
    process_ad envC3 nowC3 adC3 =
      Except.ok ({ adC3 with last_email_sent := some nowC3 },
        [CallEvent.createLinkCall "SummerSale" "ad1",
         CallEvent.notifyCall "admin@x.com" "https://pay.example/c3" "SummerSale" false,
         CallEvent.updateCall "d3"])
    ∧ ({ adC3 with last_email_sent := some nowC3 }).last_email_sent
        ≠ adC3.last_email_sent :=
  ⟨rfl, by decide⟩

/-- Claim C3 as amended: when a payment link is obtained, the dispatch
outcome is invisible to the loop (`send_payment_link_to_admin` swallows
its exceptions), so even with failed dispatch the store update proceeds
and sets `last_email_sent` to the pass's current time, provided the store
update itself returns normally. -/
theorem C3_amended_update_despite_dispatch_failure (env : Env)
    (now : PyDateTime) (ad : AdListing) (aid em link : String)
    (h1 : ad.adUnitId = some aid) (h2 : aid ≠ "")
    (h3 : ad.ad_admin = some em) (h4 : em ≠ "")
    (h5 : throttled now ad.last_email_sent = false)
    (h6 : env.create_payment_link (adTitleOf ad) aid = some link)
    (h7 : env.smtp_delivers em = false)
    (h8 : env.firestore_update_ok ad.docId = true) :
    process_ad env now ad =
      Except.ok ({ ad with last_email_sent := some now },
        [CallEvent.createLinkCall (adTitleOf ad) aid,
         CallEvent.notifyCall em link (adTitleOf ad) false,
         CallEvent.updateCall ad.docId]) := by
  unfold process_ad
  rw [h1, h3]
  simp [falsyOptStr, h2, h4, h5, h6, h7, h8]

/-- Witness for the amended C3 at the concrete C3 scenario. -/
theorem C3_witness :
    process_ad envC3 nowC3 adC3 =
      Except.ok ({ adC3 with last_email_sent := some nowC3 },
        [CallEvent.createLinkCall (adTitleOf adC3) "ad1",
         CallEvent.notifyCall "admin@x.com" "https://pay.example/c3" (adTitleOf adC3) false,
         CallEvent.updateCall "d3"]) :=
  C3_amended_update_despite_dispatch_failure envC3 nowC3 adC3 "ad1"
    "admin@x.com" "https://pay.example/c3" rfl (by decide) rfl (by decide)
    rfl rfl rfl rfl

/-- Claim C5 counterexample: a concrete listing with approval flag false
and no `last_email_sent` — but a missing `ad_admin` field — gets zero
link-creation, zero notify and zero store-update calls in a pass, not
exactly one of each (its trace is empty and it is returned unchanged),
even in an environment where link creation would succeed. -/
theorem C5_counterexample :
    adC5.isApproved = false
    ∧ adC5.last_email_sent = none
    ∧ process_ad envC5 nowC5 adC5 = Except.ok (adC5, [])
    ∧ countCreate [] = 0 ∧ countNotify [] = 0 ∧ countUpdate [] = 0 :=
  ⟨rfl, rfl, rfl, rfl, rfl, rfl⟩

/-- Claim C5 as amended: an unapproved, never-notified listing with a
non-empty `adUnitId` and a non-empty `ad_admin`, whose link creation
succeeds and whose store update returns normally, gets exactly one
link-creation, exactly one notify and exactly one store update in a pass,
and the update sets `last_email_sent` to the pass's current time. -/
theorem C5_amended_happy_path_exactly_one (env : Env) (now : PyDateTime)
    (ad : AdListing) (aid em link : String)
    (happ : ad.isApproved = false)
    (hlast : ad.last_email_sent = none)
    (h1 : ad.adUnitId = some aid) (h2 : aid ≠ "")
    (h3 : ad.ad_admin = some em) (h4 : em ≠ "")
    (h6 : env.create_payment_link (adTitleOf ad) aid = some link)
    (h8 : env.firestore_update_ok ad.docId = true) :
    process_ad env now ad =
      Except.ok ({ ad with last_email_sent := some now },
        [CallEvent.createLinkCall (adTitleOf ad) aid,
         CallEvent.notifyCall em link (adTitleOf ad) (env.smtp_delivers em),
         CallEvent.updateCall ad.docId])
    ∧ check_ads_pass env now [ad] =
        Except.ok ([{ ad with last_email_sent := some now }],
          [CallEvent.createLinkCall (adTitleOf ad) aid,
           CallEvent.notifyCall em link (adTitleOf ad) (env.smtp_delivers em),
           CallEvent.updateCall ad.docId])
    ∧ countCreate [CallEvent.createLinkCall (adTitleOf ad) aid,
         CallEvent.notifyCall em link (adTitleOf ad) (env.smtp_delivers em),
         CallEvent.updateCall ad.docId] = 1
    ∧ countNotify [CallEvent.createLinkCall (adTitleOf ad) aid,
         CallEvent.notifyCall em link (adTitleOf ad) (env.smtp_delivers em),
         CallEvent.updateCall ad.docId] = 1
    ∧ countUpdate [CallEvent.createLinkCall (adTitleOf ad) aid,
         CallEvent.notifyCall em link (adTitleOf ad) (env.smtp_delivers em),
         CallEvent.updateCall ad.docId] = 1 := by
  have hp : process_ad env now ad =
      Except.ok ({ ad with last_email_sent := some now },
        [CallEvent.createLinkCall (adTitleOf ad) aid,
         CallEvent.notifyCall em link (adTitleOf ad) (env.smtp_delivers em),
         CallEvent.updateCall ad.docId]) := by
    unfold process_ad
    rw [h1, h3]
    simp [falsyOptStr, h2, h4, hlast, throttled, h6, h8]
  refine ⟨hp, ?_, rfl, rfl, rfl⟩
  simp [check_ads_pass, run_ads, happ, hp]

/-- Witness for the amended C5 at a concrete fully-populated listing. -/
theorem C5_witness :
    process_ad envC5w nowC5w adC5w =
      Except.ok ({ adC5w with last_email_sent := some nowC5w },
        [CallEvent.createLinkCall (adTitleOf adC5w) "ad5",
         CallEvent.notifyCall "w@x.com" "https://pay.example/c5" (adTitleOf adC5w)
           (envC5w.smtp_delivers "w@x.com"),
         CallEvent.updateCall "d5w"])
    ∧ check_ads_pass envC5w nowC5w [adC5w] =
        Except.ok ([{ adC5w with last_email_sent := some nowC5w }],
          [CallEvent.createLinkCall (adTitleOf adC5w) "ad5",
           CallEvent.notifyCall "w@x.com" "https://pay.example/c5" (adTitleOf adC5w)
             (envC5w.smtp_delivers "w@x.com"),
           CallEvent.updateCall "d5w"])
    ∧ countCreate [CallEvent.createLinkCall (adTitleOf adC5w) "ad5",
         CallEvent.notifyCall "w@x.com" "https://pay.example/c5" (adTitleOf adC5w)
           (envC5w.smtp_delivers "w@x.com"),
         CallEvent.updateCall "d5w"] = 1
    ∧ countNotify [CallEvent.createLinkCall (adTitleOf adC5w) "ad5",
         CallEvent.notifyCall "w@x.com" "https://pay.example/c5" (adTitleOf adC5w)
           (envC5w.smtp_delivers "w@x.com"),
         CallEvent.updateCall "d5w"] = 1
    ∧ countUpdate [CallEvent.createLinkCall (adTitleOf adC5w) "ad5",
         CallEvent.notifyCall "w@x.com" "https://pay.example/c5" (adTitleOf adC5w)
           (envC5w.smtp_delivers "w@x.com"),
         CallEvent.updateCall "d5w"] = 1 :=
  C5_amended_happy_path_exactly_one envC5w nowC5w adC5w "ad5" "w@x.com"
    "https://pay.example/c5" rfl rfl rfl (by decide) rfl (by decide) rfl rfl

/-- Claim C6: re-delivering a completion event for ad id `X` to a store
where every listing matching `X` is already approved and active is a
no-op: the end state is identical and the handler again answers 200
`{success: true}`. -/
theorem C6_completion_idempotent (ev : StripeEvent) (store : List AdListing)
    (X : String)
    (hty : ev.type = "checkout.session.completed")
    (hmd : ev.metadata_ad_id = some X)
    (hall : ∀ d ∈ store, d.adUnitId = some X →
      d.isApproved = true ∧ d.status = "active") :
    stripe_webhook (Except.ok ev) store = (store, ⟨200, true⟩) := by
  have hw : stripe_webhook (Except.ok ev) store
      = (approveMatching X store, ⟨200, true⟩) := by
    simp [stripe_webhook, hty, hmd]
  rw [hw, approveMatching_noop X store hall]

/-- Witness for C6 at a concrete store whose matching listing is already
approved and active. -/
theorem C6_witness :
    stripe_webhook (Except.ok evC6) storeC6 = (storeC6, ⟨200, true⟩) :=
  C6_completion_idempotent evC6 storeC6 "u6" rfl rfl (by decide)

/-- Claim C7: both operations of the core preserve the invariant
`isApproved = true → status = "active"`: the webhook sets the flag and the
status together (and its rejection paths change nothing), and the
reconciler's loop body only ever writes `last_email_sent`. -/
theorem C7_invariant_preserved (constructed : Except WebhookError StripeEvent)
    (store : List AdListing) (env : Env) (now : PyDateTime)
    (ad ad2 : AdListing) (tr : List CallEvent)
    (hstore : ∀ d ∈ store, d.isApproved = true → d.status = "active")
    (had : ad.isApproved = true → ad.status = "active")
    (hrun : process_ad env now ad = Except.ok (ad2, tr)) :
    (∀ d ∈ (stripe_webhook constructed store).1,
        d.isApproved = true → d.status = "active")
    ∧ (ad2.isApproved = true → ad2.status = "active") := by
  constructor
  · cases constructed with
    | error e => exact hstore
    | ok ev =>
      by_cases hty : ev.type = "checkout.session.completed"
      · have hw : (stripe_webhook (Except.ok ev) store).1
            = approveMatching (ev.metadata_ad_id.getD "Unknown") store := by
          simp [stripe_webhook, hty]
        rw [hw]
        intro d hd
        simp only [approveMatching, List.mem_map] at hd
        obtain ⟨d0, hd0, rfl⟩ := hd
        by_cases hc : d0.adUnitId = some (ev.metadata_ad_id.getD "Unknown")
        · rw [if_pos hc]
          intro _
          rfl
        · rw [if_neg hc]
          exact hstore d0 hd0
      · have hw : (stripe_webhook (Except.ok ev) store).1 = store := by
          simp [stripe_webhook, hty]
        rw [hw]
        exact hstore
  · obtain ⟨ha, hs⟩ := process_ad_ok_approval_status env now ad ad2 tr hrun
    rw [ha, hs]
    exact had

/-- Witness for C7 at a rejected webhook call and a reconciler step on a
listing with missing correlation fields. -/
theorem C7_witness :
    (∀ d ∈ (stripe_webhook (Except.error WebhookError.invalidSignature) storeC7).1,
        d.isApproved = true → d.status = "active")
    ∧ (adC7.isApproved = true → adC7.status = "active") :=
  C7_invariant_preserved (Except.error WebhookError.invalidSignature) storeC7
    envC7 nowC7 adC7 adC7 [] (by decide) (by decide) rfl

/-- Claim C8 counterexample: in a pass over two eligible listings where
the first listing's store update raises, the exception propagates and the
pass aborts — the second listing is never processed, although on its own
(second conjunct) it would have been notified and updated. -/
theorem C8_counterexample :
    check_ads_pass envC8 nowC8 [adC8a, adC8b] = Except.error "dA"
    ∧ check_ads_pass envC8 nowC8 [adC8b] =
        Except.ok ([{ adC8b with last_email_sent := some nowC8 }],
          [CallEvent.createLinkCall "B" "u2c8",
           CallEvent.notifyCall "b@x.com" "https://pay.example/c8" "B" true,
           CallEvent.updateCall "dB"]) :=
  ⟨rfl, rfl⟩

/-- Claim C8 as amended: link-creation and dispatch failures are caught
inside the helper functions, so they never abort a pass — the loop
proceeds to the remaining listings; a store-update failure, by contrast,
is not caught anywhere, so the exception propagates and the remaining
listings of the pass are not processed. -/
theorem C8_amended_partial_fatality :
    (∀ (env : Env) (now : PyDateTime) (ad : AdListing),
        env.create_payment_link (adTitleOf ad) (ad.adUnitId.getD "") = none →
        ∃ tr, process_ad env now ad = Except.ok (ad, tr))
    ∧ (∀ (env : Env) (now : PyDateTime) (ad : AdListing),
        env.firestore_update_ok ad.docId = true →
        ∃ ad2 tr, process_ad env now ad = Except.ok (ad2, tr))
    ∧ (∀ (env : Env) (now : PyDateTime) (ad ad2 : AdListing)
          (tr : List CallEvent) (rest : List AdListing),
        process_ad env now ad = Except.ok (ad2, tr) →
        run_ads env now (ad :: rest) =
          (run_ads env now rest).map (fun p => (ad2 :: p.1, tr ++ p.2)))
    ∧ (∀ (env : Env) (now : PyDateTime) (ad : AdListing) (e : String)
          (rest : List AdListing),
        process_ad env now ad = Except.error e →
        run_ads env now (ad :: rest) = Except.error e) := by
  refine ⟨?_, ?_, ?_, ?_⟩
  · intro env now ad h
    unfold process_ad
    rw [h]
    by_cases hf : (falsyOptStr ad.adUnitId || falsyOptStr ad.ad_admin) = true
    · rw [if_pos hf]
      exact ⟨[], rfl⟩
    · rw [if_neg hf]
      by_cases ht : throttled now ad.last_email_sent = true
      · rw [if_pos ht]
        exact ⟨[], rfl⟩
      · rw [if_neg ht]
        exact ⟨_, rfl⟩
  · intro env now ad h
    unfold process_ad
    by_cases hf : (falsyOptStr ad.adUnitId || falsyOptStr ad.ad_admin) = true
    · rw [if_pos hf]
      exact ⟨ad, [], rfl⟩
    · rw [if_neg hf]
      by_cases ht : throttled now ad.last_email_sent = true
      · rw [if_pos ht]
        exact ⟨ad, [], rfl⟩
      · rw [if_neg ht]
        cases hcl : env.create_payment_link (adTitleOf ad) (ad.adUnitId.getD "") with
        | some link =>
          refine ⟨{ ad with last_email_sent := some now },
            [CallEvent.createLinkCall (adTitleOf ad) (ad.adUnitId.getD ""),
             CallEvent.notifyCall (ad.ad_admin.getD "") link (adTitleOf ad)
               (env.smtp_delivers (ad.ad_admin.getD "")),
             CallEvent.updateCall ad.docId], ?_⟩
          simp [h]
        | none =>
          exact ⟨ad, [CallEvent.createLinkCall (adTitleOf ad) (ad.adUnitId.getD "")], rfl⟩
  · intro env now ad ad2 tr rest h
    simp only [run_ads]
    rw [h]
    cases hr : run_ads env now rest with
    | error e => simp [Except.map]
    | ok p => cases p with
      | mk rest2 tr2 => simp [Except.map]
  · intro env now ad e rest h
    simp only [run_ads]
    rw [h]

end Ads
